import Mathlib

/-!
Shallow embedding of the Ndichu-shee/data-migration scripts.

The repository consists of Python batch scripts that read CSV exports,
look up existing remote records over a REST API, map each row to a JSON
request payload and POST it with retries.  The definitions below
transcribe, file by file, the row-level and helper-level logic of
  - src/grantees/create_grantees.py          (class Grantee)
  - src/grantees/add_extra_organsations.py   (class ExtraOrganisation)
  - src/grantees/update_grantee.py           (class GranteeUpdater)
  - src/proposals/create_grants_and_payments.py (class GrantPayment)
  - src/proposals/update_grant_payment.py    (class GrantUpdater)
Network effects are modelled by passing the outcome of each HTTP attempt
(or of each create/update call) as an explicit oracle argument; CSV rows
are association lists from field name to an optional string (a Python dict
whose values may be None); Python exceptions are modelled with Except.
-/

/-- Python exception values that the scripts can raise or catch. -/
inductive PyExn where
  /-- requests.exceptions.RequestException raised by the retry helpers on a
  non-success status code; carries the offending status code. -/
  | requestException (status : Nat)
  /-- An exception raised by requests.post itself (ConnectionError, Timeout,
  and so on); all of them are caught by the same except clause. -/
  | requestsError (msg : String)
  /-- TypeError (bad call signature, str operation on None, and so on). -/
  | typeError (msg : String)
  /-- AttributeError (attribute access on an object that lacks it). -/
  | attributeError (msg : String)
deriving Repr, DecidableEq

/-- Decidable equality for Except, so concrete runs can be checked with
decide. -/
instance exceptDecEq {ε α : Type} [DecidableEq ε] [DecidableEq α] :
    DecidableEq (Except ε α) := fun x y =>
  match x, y with
  | .ok a, .ok b =>
      if h : a = b then .isTrue (by rw [h]) else .isFalse (fun hc => h (Except.ok.inj hc))
  | .error a, .error b =>
      if h : a = b then .isTrue (by rw [h]) else .isFalse (fun hc => h (Except.error.inj hc))
  | .ok _, .error _ => .isFalse (fun hc => Except.noConfusion hc)
  | .error _, .ok _ => .isFalse (fun hc => Except.noConfusion hc)

/-- A CSV row / JSON object: a Python dict from string keys to values that
are either a string or None.  csv.DictReader produces string values, but
map_nonprofit_to_csv later stores None under some keys, so values are
optional. -/
abbrev Row := List (String × Option String)

/-- row.get(k): the value stored under k, or none when the key is absent or
its stored value is None. -/
def rowGet (row : Row) (k : String) : Option String :=
  match row.find? (fun p => p.1 == k) with
  | some p => p.2
  | none => none

/-- row[k] = v: Python dict assignment (overwrite in place, or append a new
key preserving insertion order). -/
def rowSet (row : Row) (k : String) (v : Option String) : Row :=
  if row.any (fun p => p.1 == k) then
    row.map (fun p => if p.1 == k then (k, v) else p)
  else
    row ++ [(k, v)]

/-- Python truthiness of a str-or-None value: None and the empty string are
falsy, every other string is truthy. -/
def pyTruthyStr : Option String → Bool
  | none => false
  | some s => !(s == "")

/-- Python `a or b` on str-or-None values. -/
def pyOr (a b : Option String) : Option String :=
  if pyTruthyStr a then a else b

/-- f-string rendering of a str-or-None value (None prints as "None"). -/
def pyStr : Option String → String
  | none => "None"
  | some s => s

/-- The whitespace characters stripped by Python str.strip(): space, tab,
newline, carriage return, vertical tab and form feed. -/
def pyIsSpace (c : Char) : Bool :=
  c == ' ' || c == Char.ofNat 9 || c == Char.ofNat 10 || c == Char.ofNat 13 ||
  c == Char.ofNat 11 || c == Char.ofNat 12

/-- Drop the trailing elements of a list satisfying p. -/
def dropTrailing (p : α → Bool) (l : List α) : List α :=
  (l.reverse.dropWhile p).reverse

/-- Python str.strip() on the character list of a string. -/
def stripList (l : List Char) : List Char :=
  dropTrailing pyIsSpace (l.dropWhile pyIsSpace)

/-- Python str.strip(). -/
def pyStrip (s : String) : String :=
  String.mk (stripList s.toList)

/-- One pass of Python str.replace on character lists: scan left to right,
replacing each non-overlapping occurrence of pat by rep.  The fuel argument
makes the recursion structural; fuel = length of the list suffices whenever
pat is non-empty (every use in the scripts has a non-empty pattern). -/
def pyReplaceAux (pat rep : List Char) : Nat → List Char → List Char
  | 0, l => l
  | _ + 1, [] => []
  | fuel + 1, c :: cs =>
      if pat.isPrefixOf (c :: cs) then
        rep ++ pyReplaceAux pat rep fuel ((c :: cs).drop pat.length)
      else
        c :: pyReplaceAux pat rep fuel cs

/-- Python str.replace(pat, rep) (for the non-empty patterns used in the
scripts). -/
def pyReplace (s pat rep : String) : String :=
  if pat.toList.isEmpty then s
  else String.mk (pyReplaceAux pat.toList rep.toList s.toList.length s.toList)

/-- Python dict.get on a string-to-string dict, with a possibly-None key
(dict.get(None) simply returns None; it does not raise). -/
def dictGet (d : List (String × String)) (k : Option String) : Option String :=
  match k with
  | none => none
  | some key =>
      match d.find? (fun p => p.1 == key) with
      | some p => some p.2
      | none => none

/-! ## HTTP attempt outcomes and the retry helpers

requests.post either returns a response object or raises one of the
requests exceptions; both the ConnectionError and the RequestException
branch of the except clauses in the scripts catch every such exception.  An
attempt oracle maps the attempt index to the outcome the POST would have. -/

/-- A HTTP response: status code plus an abstract body. -/
structure Response where
  status : Nat
  body : String
deriving Repr, DecidableEq, Inhabited

/-- The outcome of one requests.post call. -/
inductive PostOutcome where
  | resp (r : Response)
  | err (msg : String)
deriving Repr, DecidableEq

/-- The exception the loop body ends up holding for a given attempt outcome:
a non-success response is turned into a RequestException carrying its status
code, and a raising post keeps its own exception. -/
def attemptExn : PostOutcome → PyExn
  | .resp r => .requestException r.status
  | .err m => .requestsError m

/-- Whether an attempt outcome is a response with the given success code. -/
def attemptSuccess (successCode : Nat) : PostOutcome → Bool
  | .resp r => r.status == successCode
  | .err _ => false

/-- Grantee._send_request_with_retry (create_grantees.py, lines 56-75),
loop body: i is the current value of the Python loop variable attempt, and
rem is the number of loop iterations remaining after this one
(so rem > 0 iff attempt < retries - 1).  Success status code: 200.
Falling out of the loop returns None (only possible when retries = 0). -/
def granteeRetryLoop (att : Nat → PostOutcome) : Nat → Nat → Except PyExn (Option Response)
  | _, 0 => .ok none
  | i, rem + 1 =>
      match att i with
      | .resp r =>
          if r.status == 200 then .ok (some r)
          else if rem == 0 then .error (.requestException r.status)
          else granteeRetryLoop att (i + 1) rem
      | .err m =>
          if rem == 0 then .error (.requestsError m)
          else granteeRetryLoop att (i + 1) rem

/-- Grantee._send_request_with_retry (create_grantees.py, lines 56-75). -/
def granteeSendRequestWithRetry (att : Nat → PostOutcome) (retries : Nat) :
    Except PyExn (Option Response) :=
  granteeRetryLoop att 0 retries

/-- ExtraOrganisation._send_request_with_retry
(add_extra_organsations.py, lines 75-94), loop body.  Success code: 200. -/
def extraOrgRetryLoop (att : Nat → PostOutcome) : Nat → Nat → Except PyExn (Option Response)
  | _, 0 => .ok none
  | i, rem + 1 =>
      match att i with
      | .resp r =>
          if r.status == 200 then .ok (some r)
          else if rem == 0 then .error (.requestException r.status)
          else extraOrgRetryLoop att (i + 1) rem
      | .err m =>
          if rem == 0 then .error (.requestsError m)
          else extraOrgRetryLoop att (i + 1) rem

/-- ExtraOrganisation._send_request_with_retry
(add_extra_organsations.py, lines 75-94). -/
def extraOrgSendRequestWithRetry (att : Nat → PostOutcome) (retries : Nat) :
    Except PyExn (Option Response) :=
  extraOrgRetryLoop att 0 retries

/-- GranteeUpdater._send_request_with_retry (update_grantee.py, lines
45-64), loop body.  Success code: 204 (this is the one difference from the
other copies of the helper). -/
def granteeUpdaterRetryLoop (att : Nat → PostOutcome) : Nat → Nat → Except PyExn (Option Response)
  | _, 0 => .ok none
  | i, rem + 1 =>
      match att i with
      | .resp r =>
          if r.status == 204 then .ok (some r)
          else if rem == 0 then .error (.requestException r.status)
          else granteeUpdaterRetryLoop att (i + 1) rem
      | .err m =>
          if rem == 0 then .error (.requestsError m)
          else granteeUpdaterRetryLoop att (i + 1) rem

/-- GranteeUpdater._send_request_with_retry (update_grantee.py, lines 45-64). -/
def granteeUpdaterSendRequestWithRetry (att : Nat → PostOutcome) (retries : Nat) :
    Except PyExn (Option Response) :=
  granteeUpdaterRetryLoop att 0 retries

/-- GrantPayment._send_request_with_retry
(create_grants_and_payments.py, lines 56-75), loop body.  Success code: 200. -/
def grantPaymentRetryLoop (att : Nat → PostOutcome) : Nat → Nat → Except PyExn (Option Response)
  | _, 0 => .ok none
  | i, rem + 1 =>
      match att i with
      | .resp r =>
          if r.status == 200 then .ok (some r)
          else if rem == 0 then .error (.requestException r.status)
          else grantPaymentRetryLoop att (i + 1) rem
      | .err m =>
          if rem == 0 then .error (.requestsError m)
          else grantPaymentRetryLoop att (i + 1) rem

/-- GrantPayment._send_request_with_retry
(create_grants_and_payments.py, lines 56-75). -/
def grantPaymentSendRequestWithRetry (att : Nat → PostOutcome) (retries : Nat) :
    Except PyExn (Option Response) :=
  grantPaymentRetryLoop att 0 retries

/-- The common retry algorithm, parametrised by the success status code.
This definition follows the behaviour the spec describes (POST with retry,
a fixed success code) and is used to compare the per-file copies. -/
def retrySpecLoop (successCode : Nat) (att : Nat → PostOutcome) :
    Nat → Nat → Except PyExn (Option Response)
  | _, 0 => .ok none
  | i, rem + 1 =>
      match att i with
      | .resp r =>
          if r.status == successCode then .ok (some r)
          else if rem == 0 then .error (.requestException r.status)
          else retrySpecLoop successCode att (i + 1) rem
      | .err m =>
          if rem == 0 then .error (.requestsError m)
          else retrySpecLoop successCode att (i + 1) rem

/-- The common retry algorithm, parametrised by the success status code. -/
def retrySpec (successCode : Nat) (att : Nat → PostOutcome) (retries : Nat) :
    Except PyExn (Option Response) :=
  retrySpecLoop successCode att 0 retries

example : granteeSendRequestWithRetry (fun _ => .resp ⟨200, "ok"⟩) 3 =
    .ok (some ⟨200, "ok"⟩) := rfl
example : granteeSendRequestWithRetry (fun _ => .resp ⟨500, "boom"⟩) 3 =
    .error (.requestException 500) := rfl
example : granteeUpdaterSendRequestWithRetry (fun _ => .resp ⟨200, "ok"⟩) 3 =
    .error (.requestException 200) := rfl

/-! ## create_grantees.py: Grantee.process_csv row handling and CSV write-back -/

/-- The action Grantee.process_csv takes on one row (lines 138-165).
Note the guard at line 154 is `if row.get("Name") not in existing: continue`,
so a row whose Name is absent from the fetched list is skipped (while the
accompanying log message says the nonprofit already exists), and a creation
request is issued only when the Name is present in the list. -/
inductive GranteeRowAction where
  /-- A required field (Name or LIF Primary Lead Name) is missing or empty:
  the row is recorded as failed and gets id = "Failed". -/
  | skipMissingFields (missing : List String)
  /-- The `continue` under the membership guard: no request, row untouched. -/
  | skipNoCreate
  /-- A create request with the given payload fields is issued. -/
  | create (legalName primaryContactName : Option String)
deriving Repr, DecidableEq

/-- The required CSV fields checked at line 139. -/
def granteeRequiredFields : List String := ["Name", "LIF Primary Lead Name"]

/-- Grantee.process_csv, decision taken for a single row (lines 138-165).
existing is the list built by _get_nonprofits (Affinity IDs, possibly None
entries). -/
def granteeRowAction (existing : List (Option String)) (row : Row) : GranteeRowAction :=
  let missing := granteeRequiredFields.filter (fun f => !(pyTruthyStr (rowGet row f)))
  if !(missing.isEmpty) then
    .skipMissingFields missing
  else if !(existing.contains (rowGet row "Name")) then
    .skipNoCreate
  else
    .create (rowGet row "Name") (rowGet row "LIF Primary Lead Name")

/-- The in-place mutation Grantee.process_csv applies to a row: rows failing
the required-field check get id = "Failed"; skipped rows are left untouched
(the `continue` happens before row["id"] is assigned); rows for which a
create request is issued get the returned nonprofit id, or "Failed" when the
call yields a falsy id.  createOracle gives the id _create_nonprofit returns
for the row (None models both a failed call and a missing id field). -/
def granteeProcessRow (createOracle : Row → Option String)
    (existing : List (Option String)) (row : Row) : Row :=
  match granteeRowAction existing row with
  | .skipMissingFields _ => rowSet row "id" (some "Failed")
  | .skipNoCreate => row
  | .create _ _ =>
      let nid := createOracle row
      rowSet row "id" (some (if pyTruthyStr nid then nid.getD "" else "Failed"))

/-- The contents of a CSV file: header field names plus rows. -/
structure CsvFile where
  fieldnames : List String
  rows : List Row
deriving Repr, DecidableEq

/-- One row as written by csv.DictWriter(file, fieldnames) (line 54): every
field name is written, using the value in the row and the default restval "" for
a missing key (a None value is also written as the empty string). -/
def granteeWriteRow (fieldnames : List String) (row : Row) : Row :=
  fieldnames.map (fun k => (k, some ((rowGet row k).getD "")))

/-- The file contents Grantee.process_csv writes back to its input file
(lines 133-166): the field names gain an "id" column when absent, every row
is processed (possibly mutated) and written through DictWriter. -/
def granteeWrittenFile (createOracle : Row → Option String)
    (existing : List (Option String)) (f : CsvFile) : CsvFile :=
  let fieldnames :=
    if f.fieldnames.contains "id" then f.fieldnames else f.fieldnames ++ ["id"]
  { fieldnames := fieldnames,
    rows := f.rows.map (fun r =>
      granteeWriteRow fieldnames (granteeProcessRow createOracle existing r)) }

/-! ## add_extra_organsations.py: ExtraOrganisation batches -/

/-- The outcome of the network calls made for one row of
ExtraOrganisation.process_batch: the id _create_nonprofit returns (None for
a failed creation or a missing id in the response) and whether
_update_nonprofit succeeds. -/
structure ExtraOrgOracle where
  createResult : Row → Option String
  updateResult : Row → Bool

/-- The mutable lists on an ExtraOrganisation instance (set up in
__init__, lines 20-27).  The first four are appended to by process_batch;
the all_ lists are extended by process_csv after each batch. -/
structure ExtraOrgState where
  success_responses : List (Option String)
  failed_responses : List (Option String)
  update_success_responses : List (Option String)
  update_failed_responses : List (Option String)
  all_failed : List (Option String)
  all_success : List (Option String)
  all_update_failed : List (Option String)
  all_update_success : List (Option String)
deriving Repr, DecidableEq

/-- A fresh ExtraOrganisation instance: all eight lists empty. -/
def extraOrgInitState : ExtraOrgState := ⟨[], [], [], [], [], [], [], []⟩

/-- ExtraOrganisation.process_batch, handling of one row (lines 140-156):
create when the Organization Id is absent from the fetched list, then
update; append the Organization Id to update_success_responses or
update_failed_responses, or the Name of the row to failed_responses when
creation fails.  A row whose Organization Id is present is skipped. -/
def extraOrgProcessRow (oracle : ExtraOrgOracle) (tamelio : List (Option String))
    (st : ExtraOrgState) (row : Row) : ExtraOrgState :=
  let orgId := rowGet row "Organization Id"
  if !(tamelio.contains orgId) then
    let nid := oracle.createResult row
    if pyTruthyStr nid then
      if oracle.updateResult row then
        { st with update_success_responses := st.update_success_responses ++ [orgId] }
      else
        { st with update_failed_responses := st.update_failed_responses ++ [orgId] }
    else
      { st with failed_responses := st.failed_responses ++ [rowGet row "Name"] }
  else
    st

/-- ExtraOrganisation.process_batch (lines 137-163): process every row of
the batch, then return the four instance lists (which have been accumulating
across every batch processed so far on this instance). -/
def extraOrgProcessBatch (oracle : ExtraOrgOracle) (tamelio : List (Option String))
    (batch : List Row) (st : ExtraOrgState) :
    ExtraOrgState ×
      (List (Option String) × List (Option String) × List (Option String) × List (Option String)) :=
  let st := batch.foldl (extraOrgProcessRow oracle tamelio) st
  (st, (st.failed_responses, st.success_responses,
        st.update_failed_responses, st.update_success_responses))

/-- The slices csv_data[i : i + b] for i = 0, b, 2b, ... taken by
ExtraOrganisation.process_csv (line 175-176).  The fuel argument makes the
recursion structural; fuel = length of the list suffices whenever b > 0
(the Python range call would raise ValueError on b = 0, which no caller does). -/
def chunksGo (b : Nat) : Nat → List α → List (List α)
  | _, [] => []
  | 0, _ :: _ => []
  | fuel + 1, x :: xs => ((x :: xs).take b) :: chunksGo b fuel ((x :: xs).drop b)

/-- The list of batches ExtraOrganisation.process_csv slices out of
csv_data. -/
def chunks (b : Nat) (l : List α) : List (List α) :=
  chunksGo b l.length l

/-- ExtraOrganisation.process_csv (lines 165-193): process the CSV in
batches of batch_size rows, extending the all_ lists with the four lists
returned by each process_batch call.  (The source calls the method as
self._process_batch and passes file_path to _read_csv, two name slips that
would raise at runtime; the transcription resolves them to the defined
process_batch and _read_csv, which is the only possible intent.)  Returns
the final state; the script returns its four all_ lists. -/
def extraOrgProcessCsv (oracle : ExtraOrgOracle) (tamelio : List (Option String))
    (csvData : List Row) (batchSize : Nat) : ExtraOrgState :=
  (chunks batchSize csvData).foldl
    (fun st batch =>
      let res := extraOrgProcessBatch oracle tamelio batch st
      let st := res.1
      let failed := res.2.1
      let success := res.2.2.1
      let updateFailed := res.2.2.2.1
      let updateSuccess := res.2.2.2.2
      { st with
          all_failed := st.all_failed ++ failed,
          all_success := st.all_success ++ success,
          all_update_failed := st.all_update_failed ++ updateFailed,
          all_update_success := st.all_update_success ++ updateSuccess })
    extraOrgInitState

example : chunks 2 [1, 2, 3, 4, 5] = [[1, 2], [3, 4], [5]] := by decide

/-! ## update_grantee.py: GranteeUpdater contact-person normalization -/

/-- The apostrophe character (U+0027). -/
def apostrophe : Char := Char.ofNat 39

/-- The correctly spelt name "Amolo Ng weno" with an apostrophe between the
g and the w (built from characters to keep the file free of apostrophes). -/
def amoloWithApostrophe : String :=
  "Amolo Ng" ++ String.singleton apostrophe ++ "weno"

/-- The contact-person normalization in GranteeUpdater._update_custom_fields
(update_grantee.py, lines 76-85): strip the value, then
  - if it equals the correctly spelt name (with apostrophe), replace the
    substring "Amolo Ngweno" (without apostrophe) in it -- a no-op, since
    the misspelt form does not occur in the correctly spelt string;
  - else if it equals "Seth Aaron Gross Andrew", replace that whole string
    by "Seth Andrews". -/
def updateContactNormalize (s : String) : String :=
  let t := pyStrip s
  if t == amoloWithApostrophe then
    pyReplace t "Amolo Ngweno" amoloWithApostrophe
  else if t == "Seth Aaron Gross Andrew" then
    pyReplace t "Seth Aaron Gross Andrew" "Seth Andrews"
  else
    t

/-- The normalization as the claim describes it: strip surrounding
whitespace, then map the exact string "Seth Aaron Gross Andrew" to
"Seth Andrews" and leave every other string unchanged. -/
def contactNormalizeSpec (s : String) : String :=
  let t := pyStrip s
  if t == "Seth Aaron Gross Andrew" then "Seth Andrews" else t

/-! ## Date parsing (datetime.strptime with the formats the scripts use)

GrantPayment._parse_date tries "%m/%d/%Y" then "%m/%d/%y";
GrantUpdater._parse_date uses its default "%m/%d/%Y".  CPython compiles
each directive to a regular expression -- %m to (1[0-2]|0[1-9]|[1-9]),
%d to (3[01]|[12]\d|0[1-9]|[1-9]), %Y to exactly four digits, %y to exactly
two -- requires the whole string to match, and then validates the values
through the datetime constructor (day within the month, year at least 1). -/

/-- The numeric value of a decimal digit, if the character is one. -/
def digitVal (c : Char) : Option Nat :=
  if c.isDigit then some (c.toNat - 48) else none

/-- Parse the %m directive: (1[0-2]|0[1-9]|[1-9]), alternatives tried in
order, returning the month and the remaining characters. -/
def parseMonth : List Char → Option (Nat × List Char)
  | [] => none
  | c :: cs =>
      match digitVal c with
      | none => none
      | some d =>
          match cs with
          | [] => if 1 ≤ d then some (d, []) else none
          | c2 :: cs2 =>
              match digitVal c2 with
              | none => if 1 ≤ d then some (d, cs) else none
              | some d2 =>
                  if d == 1 && d2 ≤ 2 then some (10 + d2, cs2)
                  else if d == 0 && 1 ≤ d2 then some (d2, cs2)
                  else if 1 ≤ d then some (d, cs)
                  else none

/-- Parse the %d directive: (3[01]|[12]\d|0[1-9]|[1-9]), alternatives tried
in order. -/
def parseDay : List Char → Option (Nat × List Char)
  | [] => none
  | c :: cs =>
      match digitVal c with
      | none => none
      | some d =>
          match cs with
          | [] => if 1 ≤ d then some (d, []) else none
          | c2 :: cs2 =>
              match digitVal c2 with
              | none => if 1 ≤ d then some (d, cs) else none
              | some d2 =>
                  if d == 3 && d2 ≤ 1 then some (30 + d2, cs2)
                  else if (d == 1 || d == 2) then some (10 * d + d2, cs2)
                  else if d == 0 && 1 ≤ d2 then some (d2, cs2)
                  else if 1 ≤ d then some (d, cs)
                  else none

/-- Parse exactly n digits as a number. -/
def parseDigits : Nat → List Char → Option (Nat × List Char)
  | 0, l => some (0, l)
  | n + 1, [] => (n + 1 : Nat) |> fun _ => none
  | n + 1, c :: cs =>
      match digitVal c with
      | none => none
      | some d =>
          match parseDigits n cs with
          | none => none
          | some (v, rest) => some (d * 10 ^ n + v, rest)

/-- Whether a year is a leap year (the Gregorian rule datetime uses). -/
def isLeapYear (y : Nat) : Bool :=
  y % 4 == 0 && (y % 100 != 0 || y % 400 == 0)

/-- Days in a month, as validated by the datetime constructor. -/
def daysInMonth (y m : Nat) : Nat :=
  if m == 2 then (if isLeapYear y then 29 else 28)
  else if m == 4 || m == 6 || m == 9 || m == 11 then 30
  else 31

/-- A validated calendar date. -/
structure PyDate where
  year : Nat
  month : Nat
  day : Nat
deriving Repr, DecidableEq, Inhabited

/-- Whether (year, month, day) is accepted by the datetime constructor:
month and day are already range-limited by the directive patterns, so the
remaining checks are day within the month and MINYEAR ≤ year ≤ MAXYEAR. -/
def validDate (y m d : Nat) : Bool :=
  1 ≤ y && y ≤ 9999 && 1 ≤ m && m ≤ 12 && 1 ≤ d && d ≤ daysInMonth y m

/-- datetime.strptime(s, "%m/%d/%Y"): month, slash, day, slash, four-digit
year, end of string, then constructor validation. -/
def strptimeMDY4 (s : String) : Option PyDate :=
  match parseMonth s.toList with
  | none => none
  | some (m, rest) =>
      match rest with
      | '/' :: rest2 =>
          match parseDay rest2 with
          | none => none
          | some (d, rest3) =>
              match rest3 with
              | '/' :: rest4 =>
                  match parseDigits 4 rest4 with
                  | some (y, []) => if validDate y m d then some ⟨y, m, d⟩ else none
                  | _ => none
              | _ => none
      | _ => none

/-- datetime.strptime(s, "%m/%d/%y"): two-digit year, mapped by CPython to
2000 + yy when yy ≤ 68 and 1900 + yy otherwise. -/
def strptimeMDY2 (s : String) : Option PyDate :=
  match parseMonth s.toList with
  | none => none
  | some (m, rest) =>
      match rest with
      | '/' :: rest2 =>
          match parseDay rest2 with
          | none => none
          | some (d, rest3) =>
              match rest3 with
              | '/' :: rest4 =>
                  match parseDigits 2 rest4 with
                  | some (yy, []) =>
                      let y := if yy ≤ 68 then 2000 + yy else 1900 + yy
                      if validDate y m d then some ⟨y, m, d⟩ else none
                  | _ => none
              | _ => none
      | _ => none

/-- Left-pad the decimal rendering of n with zeros to the given width. -/
def padNum (width n : Nat) : String :=
  let s := toString n
  String.mk (List.replicate (width - s.length) '0') ++ s

/-- strftime("%Y-%m-%d") on a parsed date (years below 1000, which only
arise from four-digit inputs with leading zeros, are zero-padded here; for
such years CPython defers to the platform strftime). -/
def formatDate (d : PyDate) : String :=
  padNum 4 d.year ++ "-" ++ padNum 2 d.month ++ "-" ++ padNum 2 d.day

/-- GrantPayment._parse_date (create_grants_and_payments.py, lines 77-86):
try "%m/%d/%Y" then "%m/%d/%y", catching only ValueError; on a None
argument strptime raises TypeError, which the helper does not catch. -/
def grantPaymentParseDate (dateStr : Option String) : Except PyExn (Option String) :=
  match dateStr with
  | none => .error (.typeError "strptime() argument 1 must be str, not None")
  | some s =>
      match strptimeMDY4 s with
      | some d => .ok (some (formatDate d))
      | none =>
          match strptimeMDY2 s with
          | some d => .ok (some (formatDate d))
          | none => .ok none

/-- GrantUpdater._parse_date (update_grant_payment.py, lines 45-51): a
single default format "%m/%d/%Y", catching both ValueError and TypeError,
so a None argument also yields None. -/
def grantUpdaterParseDate (dateStr : Option String) : Option String :=
  match dateStr with
  | none => none
  | some s => (strptimeMDY4 s).map formatDate

example : grantPaymentParseDate (some "01/30/2025") = .ok (some "2025-01-30") := by decide
example : grantPaymentParseDate (some "1/5/25") = .ok (some "2025-01-05") := by decide
example : grantPaymentParseDate (some "2/30/2024") = .ok none := by decide
example : grantPaymentParseDate (some "") = .ok none := by decide
example : grantUpdaterParseDate (some "12/31/1999") = some "1999-12-31" := by decide
example : grantUpdaterParseDate (some "12/31/99") = none := by decide

/-! ## Amount parsing (_clean_amount) -/

/-- The numeric value of a digit list (most significant first). -/
def digitsToNat (l : List Nat) : Nat :=
  l.foldl (fun acc d => acc * 10 + d) 0

/-- A numeric value parsed by float(), kept exactly as a signed decimal
mantissa and a power-of-ten exponent: the value is num * 10 ^ exp.  The
scripts only move these values around unchanged, so the model keeps the
exact decimal value rather than an IEEE approximation. -/
structure PyFloat where
  num : Int
  exp : Int
deriving Repr, DecidableEq, Inhabited

/-- The Python int 0 as it appears in the awardedAmount else-branch. -/
def pyZero : PyFloat := ⟨0, 0⟩

/-- The rational value a PyFloat denotes. -/
def PyFloat.toRat (f : PyFloat) : ℚ := (f.num : ℚ) * (10 : ℚ) ^ f.exp

/-- Exponent part of a float literal: an optional sign plus digits,
consuming the whole rest of the string. -/
def pyFloatExp (l : List Char) : Option Int :=
  let signAndRest : Int × List Char :=
    match l with
    | '-' :: r => (-1, r)
    | '+' :: r => (1, r)
    | r => (1, r)
  let ds := signAndRest.2.takeWhile Char.isDigit
  let rest := signAndRest.2.dropWhile Char.isDigit
  if ds.isEmpty || !rest.isEmpty then none
  else some (signAndRest.1 * (digitsToNat (ds.filterMap digitVal) : Int))

/-- Python float() on a plain decimal literal: optional surrounding
whitespace, an optional sign, digits with at most one decimal point (at
least one digit overall), and an optional exponent.  (The special float
syntaxes inf/nan/underscores play no role in the CSV amount columns.)
Returns None on anything else, modelling ValueError. -/
def pyFloatLit (s : String) : Option PyFloat :=
  let l0 := dropTrailing pyIsSpace (s.toList.dropWhile pyIsSpace)
  let signAndRest : Int × List Char :=
    match l0 with
    | '-' :: r => (-1, r)
    | '+' :: r => (1, r)
    | r => (1, r)
  let sign := signAndRest.1
  let l := signAndRest.2
  let ipChars := l.takeWhile Char.isDigit
  let r1 := l.dropWhile Char.isDigit
  let fracAndRest : List Char × List Char :=
    match r1 with
    | '.' :: r => (r.takeWhile Char.isDigit, r.dropWhile Char.isDigit)
    | r => ([], r)
  let fracChars := fracAndRest.1
  let r2 := fracAndRest.2
  if ipChars.isEmpty && fracChars.isEmpty then none
  else
    let mantissa : Int :=
      (digitsToNat ((ipChars ++ fracChars).filterMap digitVal) : Int)
    let baseExp : Int := -(fracChars.length : Int)
    match r2 with
    | [] => some ⟨sign * mantissa, baseExp⟩
    | 'e' :: r3 => (pyFloatExp r3).map (fun e => ⟨sign * mantissa, baseExp + e⟩)
    | 'E' :: r3 => (pyFloatExp r3).map (fun e => ⟨sign * mantissa, baseExp + e⟩)
    | _ => none

/-- GrantPayment._clean_amount (create_grants_and_payments.py, lines
88-94): strip commas and convert with float(), returning None on
ValueError.  On a None argument the .replace call raises AttributeError,
which the except clause (ValueError only) does not catch. -/
def cleanAmount (amountStr : Option String) : Except PyExn (Option PyFloat) :=
  match amountStr with
  | none => .error (.attributeError "NoneType object has no attribute replace")
  | some s => .ok (pyFloatLit (pyReplace s "," ""))

example : cleanAmount (some "1,000.50") = .ok (some ⟨100050, -2⟩) := by decide
example : cleanAmount (some "abc") = .ok none := by decide
example : cleanAmount (some "2500") = .ok (some ⟨2500, 0⟩) := by decide

/-! ## create_grants_and_payments.py: GrantPayment.generate_json_request -/

/-- The environment dictionaries GrantPayment loads from env variables. -/
structure GrantEnv where
  supportTypeToId : List (String × String)
  programAreasToId : List (String × String)
  users : List (String × String)
  pipelines : List (String × String)
  foundationId : String

/-- The hard-coded fallback assignee id (lines 191 and 194). -/
def defaultContactPersonId : String := "77f5fdb5-3d94-4ac5-b548-b6c021ffc321"

/-- approved_stages (line 158). -/
def approvedStages : List String := ["Active grant", "Engagement completed"]

/-- `stage_name in approved_stages` (a None stage is in no string list). -/
def isApprovedStage (stageName : Option String) : Bool :=
  match stageName with
  | some s => approvedStages.contains s
  | none => false

/-- One entry of the grantPayments list (lines 198-231); the fields that
vary with the row (the remaining fields of the JSON object are the
constants None / True / "ACH" written literally in the source). -/
structure PaymentItem where
  active : Bool
  disbursementEntity : Option String
  budgetCategory : Option String
  amount : Option PyFloat
  assigneeId : String
  dueDate : Option String
  nonprofitId : Option String
  status : String
  payType : String
deriving Repr, DecidableEq, Inhabited

/-- The row-dependent fields of the json_request payload (lines 232-337);
constant fields of the literal (foundation block, empty lists, Nones,
"Historical Grants", and so on) are omitted as they carry no row
information. -/
structure GrantRequest where
  foundationId : String
  grantPayments : List PaymentItem
  customGrantTypeId : Option String
  awardedAmount : Option PyFloat
  awardedDate : Option String
  durationStart : String
  durationEnd : String
  grantMinAmount : Option PyFloat
  name : Option String
  nonprofitId : Option String
  pipelineId : Option String
  programAreas : List (Option String)
  stage : Option String
  submissionStatus : String
deriving Repr, DecidableEq, Inhabited

/-- GrantPayment.generate_json_request, handling of one mapped row (lines
160-340), up to the payload handed to post_to_api.  existingGrants is the
list _get_grants_name would return.  Returns ok none when the row is
skipped (grant name already exists, or a falsy support type), ok (some
request) when a payload is built, and error when the Python code raises
(str methods on a missing field, strptime on None, _clean_amount on None).
_clean_amount(data.get("Amount")) is evaluated once here although the
source evaluates it up to three times: all occurrences receive the same
argument and are pure, and the grantAmount occurrence is unconditional, so
a missing Amount raises on every path that builds a payload.
data.get("foundationId", self.foundation_id) is modelled with getD: CSV
rows never carry a foundationId key.  The intermediate locals of the source
(support_type, status, contact_person_id, and so on) are pure expressions
evaluated once; they are inlined into the payload literal here, which
leaves the meaning unchanged. -/
def generateRowRequest (env : GrantEnv) (existingGrants : List String) (row : Row) :
    Except PyExn (Option GrantRequest) :=
  if (match rowGet row "Name" with
      | some n => existingGrants.contains n
      | none => false) then
    .ok none
  else
    match rowGet row "Support type" with
    | none => .error (.attributeError "NoneType object has no attribute replace")
    | some stRaw =>
      if pyReplace stRaw "S.A.F.E" "SAFE" == "" then .ok none
      else
        match grantPaymentParseDate (rowGet row "Close Date (decision made)") with
        | .error e => .error e
        | .ok formattedDate =>
          match grantPaymentParseDate
              (pyOr (rowGet row "Disbursement date")
                (rowGet row "Estimated disbursement date")) with
          | .error e => .error e
          | .ok dueDateIso =>
            match rowGet row "LIF Primary Lead" with
            | none => .error (.attributeError "NoneType object has no attribute strip")
            | some lifRaw =>
              match cleanAmount (rowGet row "Amount") with
              | .error e => .error e
              | .ok amountVal =>
                .ok (some
                  { foundationId := (rowGet row "foundationId").getD env.foundationId,
                    grantPayments :=
                      if isApprovedStage (rowGet row "Stage") then
                        [{ active := true,
                           disbursementEntity := rowGet row "Disbursement Entity",
                           budgetCategory := rowGet row "Portfolio [Organization]",
                           amount := amountVal,
                           assigneeId :=
                             if pyStrip lifRaw == "N/A" then defaultContactPersonId
                             else if pyTruthyStr
                                 (dictGet env.users (some (pyStrip lifRaw))) then
                               (dictGet env.users (some (pyStrip lifRaw))).getD ""
                             else defaultContactPersonId,
                           dueDate := dueDateIso,
                           nonprofitId := rowGet row "nonprofitId",
                           status :=
                             if pyTruthyStr (rowGet row "Disbursement date") then "SENT"
                             else "NOT_STARTED",
                           payType := "ACH" }]
                      else [],
                    customGrantTypeId :=
                      dictGet env.supportTypeToId (some (pyReplace stRaw "S.A.F.E" "SAFE")),
                    awardedAmount :=
                      if isApprovedStage (rowGet row "Stage") then amountVal
                      else some pyZero,
                    awardedDate := formattedDate,
                    durationStart := pyStr (rowGet row "LIF Calendar Year") ++ "-01-01",
                    durationEnd := pyStr (rowGet row "LIF Calendar Year") ++ "-12-31",
                    grantMinAmount := amountVal,
                    name := rowGet row "Name",
                    nonprofitId := rowGet row "nonprofitId",
                    pipelineId := dictGet env.pipelines (rowGet row "Pipeline"),
                    programAreas :=
                      [dictGet env.programAreasToId (rowGet row "Portfolio [Organization]")],
                    stage := rowGet row "Stage",
                    submissionStatus := "PUBLISHED" })

/-! ## The remote-lookup functions and Python call binding

Three lookup helpers contain call-signature slips, so their non-dry paths
raise before any request is made.  Python argument binding is modelled
just far enough to exhibit the TypeError: a call site is summarised by the
number of positional arguments and the keyword names it passes, checked
against the parameter list of the callee. -/

/-- A Python function signature: parameter names in order (the bound self
excluded) and how many trailing parameters carry default values. -/
structure CallSig where
  params : List String
  defaults : Nat

/-- Bind a call against a signature: an unknown keyword, a keyword also
bound positionally, or an unbound parameter without a default each raise
TypeError. -/
def callBind (sig : CallSig) (npos : Nat) (kwargs : List String) : Except PyExn Unit :=
  if kwargs.any (fun k => !(sig.params.contains k)) then
    .error (.typeError "got an unexpected keyword argument")
  else if kwargs.any (fun k => sig.params.indexOf k < npos) then
    .error (.typeError "got multiple values for argument")
  else if (sig.params.take (sig.params.length - sig.defaults)).enum.any
      (fun p => npos ≤ p.1 && !(kwargs.contains p.2)) then
    .error (.typeError "missing a required positional argument")
  else
    .ok ()

/-- The signature of every _send_request_with_retry copy:
(url, headers, data, retries=3, delay=5). -/
def sendRequestWithRetrySig : CallSig :=
  ⟨["url", "headers", "data", "retries", "delay"], 2⟩

/-- The signature requests ultimately binds a get/post call against
(requests.Session.request); everything after url has a default. -/
def sessionRequestSig : CallSig :=
  ⟨["method", "url", "params", "data", "headers", "cookies", "files", "auth",
    "timeout", "allow_redirects", "proxies", "hooks", "stream", "verify",
    "cert", "json"], 14⟩

/-- One entry of the searchResponse.responses list, reduced to the custom
field Grantee._get_nonprofits extracts
(item.get("customFields", {}).get("Affinity ID-4jS8olxc")). -/
structure ContactItem where
  affinityId : Option String
deriving Repr, DecidableEq

/-- Grantee._get_nonprofits, non-dry path (create_grantees.py, lines
84-94).  The call at lines 84-86 passes url and headers positionally and a
json= keyword; _send_request_with_retry has no json parameter (and its
data parameter stays unbound), so the call itself raises TypeError and the
continuation -- transcribed in the ok branch from lines 88-94, collecting
the Affinity IDs of the items the response would hold -- is unreachable.
items stands for the searchResponse.responses list of that hypothetical
response. -/
def granteeGetNonprofits (items : List ContactItem) :
    Except PyExn (Option (List (Option String))) :=
  match callBind sendRequestWithRetrySig 2 ["json"] with
  | .error e => .error e
  | .ok _ => .ok (some (items.map (fun it => it.affinityId)))

/-- A Python value, as far as the scripts inspect one. -/
inductive PyVal where
  | str (s : String)
  | int (n : Int)
  | vNone
  | dict (entries : List (String × PyVal))
  | tuple (elems : List PyVal)
  | list (elems : List PyVal)

/-- Python truthiness of a PyVal. -/
def pyTruthy : PyVal → Bool
  | .str s => !(s == "")
  | .int n => !(n == 0)
  | .vNone => false
  | .dict es => !es.isEmpty
  | .tuple es => !es.isEmpty
  | .list es => !es.isEmpty

/-- v.get(key, dflt): only dicts have a get method; on any other value the
attribute lookup raises AttributeError. -/
def pyValGet (v : PyVal) (key : String) (dflt : PyVal) : Except PyExn PyVal :=
  match v with
  | .dict es =>
      .ok (match es.find? (fun p => p.1 == key) with
           | some p => p.2
           | none => dflt)
  | _ => .error (.attributeError "tuple object has no attribute get")

/-- GrantPayment.get_nonprofit_data (create_grants_and_payments.py, lines
96-104).  Line 101 assigns the 3-tuple
(self.get_contacts_endpoint, self.headers, {"pageSize": 10000}) to
response_data -- no request is made -- so the truthiness test sees a
non-empty tuple and the subsequent response_data.get("searchResponse", {})
raises AttributeError. -/
def getNonprofitData (dryRun : Bool) (endpoint : String) (headers payload : PyVal) :
    Except PyExn PyVal :=
  if dryRun then
    .ok (.list [.dict [("name", .str "Joyce Nonprofit"), ("id", .int 2025)]])
  else
    let responseData := PyVal.tuple [.str endpoint, headers, payload]
    if pyTruthy responseData then
      match pyValGet responseData "searchResponse" (.dict []) with
      | .error e => .error e
      | .ok sr =>
          match pyValGet sr "responses" (.list []) with
          | .error e => .error e
          | .ok rs => .ok rs
    else
      .ok .vNone

/-- GrantPayment._get_grants_name, non-dry path
(create_grants_and_payments.py, lines 132-148).  The call at lines 132-137
is requests.get(url, headers, json_payload=..., method="POST"): headers
binds positionally to params, and the keywords json_payload and method are
forwarded to the session request call, whose signature has no json_payload
parameter (and whose method parameter is already bound), raising
TypeError.  The ok branch transcribes the unreachable continuation (lines
139-148): keep the truthy names of the response items.  responseNames
stands for the name fields of that hypothetical response. -/
def grantPaymentGetGrantsName (responseNames : List (Option String)) :
    Except PyExn (List String) :=
  match callBind sessionRequestSig 2 ["params", "json_payload", "method"] with
  | .error e => .error e
  | .ok _ =>
      .ok (((responseNames.filter pyTruthyStr).map (fun n => n.getD "")))

/-! ## Concrete inputs used by the witnesses and counterexamples below -/

/-- A complete grantees CSV row (Name and LIF Primary Lead Name present). -/
def c1row : Row := [("Name", some "Org A"), ("LIF Primary Lead Name", some "Jane")]

/-- A non-grantees CSV row for ExtraOrganisation. -/
def c1rowExtra : Row :=
  [("Organization Id", some "7"), ("Name", some "Org B"), ("Tags", some "t")]

/-- An oracle whose creation and update calls both succeed. -/
def c1oracle : ExtraOrgOracle := ⟨fun _ => some "nid-1", fun _ => true⟩

/-- Attempts for the retry witness: the first two posts raise, the third
returns 200. -/
def c2att : Nat → PostOutcome :=
  fun i => if i == 2 then .resp ⟨200, "ok"⟩ else .err ("refused " ++ toString (i + 1))

/-- Attempts that all raise, with distinct messages so the re-raised
exception identifies the attempt it came from. -/
def c2failAtt : Nat → PostOutcome :=
  fun i => .err ("boom " ++ toString (i + 1))

/-- An all-200 attempt sequence for comparing the retry helper copies. -/
def c8att : Nat → PostOutcome := fun _ => .resp ⟨200, "created"⟩

/-- Environment dictionaries for the payload-generation witness. -/
def c3env : GrantEnv :=
  { supportTypeToId := [("General support", "st-1")],
    programAreasToId := [("Health", "pa-1")],
    users := [("Jane Doe", "u-1")],
    pipelines := [("Main", "pl-1")],
    foundationId := "fid-1" }

/-- A mapped CSV row in an approved stage with a disbursement date. -/
def c3row : Row :=
  [("Name", some "Grant One"),
   ("Support type", some "General support"),
   ("Close Date (decision made)", some "12/31/2024"),
   ("Disbursement date", some "01/15/2025"),
   ("Estimated disbursement date", some ""),
   ("LIF Calendar Year", some "2024"),
   ("Portfolio [Organization]", some "Health"),
   ("Stage", some "Active grant"),
   ("Pipeline", some "Main"),
   ("LIF Primary Lead", some "Jane Doe"),
   ("Amount", some "1,000.50"),
   ("Disbursement Entity", some "Entity X"),
   ("nonprofitId", some "np-1")]

/-- The same row in a non-approved stage and without a disbursement date. -/
def c3rowClosed : Row :=
  [("Name", some "Grant Two"),
   ("Support type", some "General support"),
   ("Close Date (decision made)", some "12/31/2024"),
   ("Disbursement date", some ""),
   ("Estimated disbursement date", some "03/01/2025"),
   ("LIF Calendar Year", some "2024"),
   ("Portfolio [Organization]", some "Health"),
   ("Stage", some "Declined"),
   ("Pipeline", some "Main"),
   ("LIF Primary Lead", some "Jane Doe"),
   ("Amount", some "1,000.50"),
   ("Disbursement Entity", some "Entity X"),
   ("nonprofitId", some "np-1")]

/-- The payload generate_json_request builds for c3row. -/
def c3req : GrantRequest :=
  match generateRowRequest c3env [] c3row with
  | .ok (some r) => r
  | _ => default

/-- The payload generate_json_request builds for c3rowClosed. -/
def c3reqClosed : GrantRequest :=
  match generateRowRequest c3env [] c3rowClosed with
  | .ok (some r) => r
  | _ => default

/-- Two rows whose Organization Ids are absent remotely and whose creation
fails, to drive the batch accumulation. -/
def c4row1 : Row := [("Organization Id", some "1"), ("Name", some "Org A")]

/-- Second row for the batch-accumulation run. -/
def c4row2 : Row := [("Organization Id", some "2"), ("Name", some "Org B")]

/-- An oracle whose creation calls all fail. -/
def c4oracle : ExtraOrgOracle := ⟨fun _ => none, fun _ => true⟩

/-- A two-column CSV file with one complete row. -/
def c5file : CsvFile :=
  ⟨["Name", "LIF Primary Lead Name"],
   [[("Name", some "Org A"), ("LIF Primary Lead Name", some "Jane")]]⟩

/-- A creation oracle returning no id. -/
def c5oracle : Row → Option String := fun _ => none

/-- Five rows for the batching witness. -/
def c10rows : List Row :=
  [[("Organization Id", some "1")], [("Organization Id", some "2")],
   [("Organization Id", some "3")], [("Organization Id", some "4")],
   [("Organization Id", some "5")]]

/-! ## Helper lemmas -/

theorem granteeRetryLoop_eq_spec (att : Nat → PostOutcome) :
    ∀ rem i, granteeRetryLoop att i rem = retrySpecLoop 200 att i rem := by
  intro rem
  induction rem with
  | zero => intro i; rfl
  | succ n ih =>
      intro i
      unfold granteeRetryLoop retrySpecLoop
      cases att i <;> simp [ih]

theorem extraOrgRetryLoop_eq_spec (att : Nat → PostOutcome) :
    ∀ rem i, extraOrgRetryLoop att i rem = retrySpecLoop 200 att i rem := by
  intro rem
  induction rem with
  | zero => intro i; rfl
  | succ n ih =>
      intro i
      unfold extraOrgRetryLoop retrySpecLoop
      cases att i <;> simp [ih]

theorem grantPaymentRetryLoop_eq_spec (att : Nat → PostOutcome) :
    ∀ rem i, grantPaymentRetryLoop att i rem = retrySpecLoop 200 att i rem := by
  intro rem
  induction rem with
  | zero => intro i; rfl
  | succ n ih =>
      intro i
      unfold grantPaymentRetryLoop retrySpecLoop
      cases att i <;> simp [ih]

theorem granteeUpdaterRetryLoop_eq_spec (att : Nat → PostOutcome) :
    ∀ rem i, granteeUpdaterRetryLoop att i rem = retrySpecLoop 204 att i rem := by
  intro rem
  induction rem with
  | zero => intro i; rfl
  | succ n ih =>
      intro i
      unfold granteeUpdaterRetryLoop retrySpecLoop
      cases att i <;> simp [ih]

theorem granteeRetryLoop_first_success (att : Nat → PostOutcome) (i rem : Nat)
    (r : Response) (hr : att i = .resp r) (h200 : r.status = 200) :
    granteeRetryLoop att i (rem + 1) = .ok (some r) := by
  unfold granteeRetryLoop
  rw [hr]
  simp [h200]

theorem granteeRetryLoop_skip (att : Nat → PostOutcome) (i rem : Nat)
    (hrem : rem ≠ 0) (hfail : attemptSuccess 200 (att i) = false) :
    granteeRetryLoop att i (rem + 1) = granteeRetryLoop att (i + 1) rem := by
  obtain ⟨m, rfl⟩ : ∃ m, rem = m + 1 := ⟨rem - 1, by omega⟩
  conv_lhs => unfold granteeRetryLoop
  cases h : att i with
  | resp r =>
      rw [h] at hfail
      simp only [attemptSuccess] at hfail
      simp [h, hfail]
  | err m2 => simp [h]

theorem granteeRetryLoop_last_fail (att : Nat → PostOutcome) (i : Nat)
    (hfail : attemptSuccess 200 (att i) = false) :
    granteeRetryLoop att i 1 = .error (attemptExn (att i)) := by
  unfold granteeRetryLoop
  cases h : att i with
  | resp r =>
      rw [h] at hfail
      simp only [attemptSuccess] at hfail
      simp [hfail, attemptExn]
  | err m => simp [attemptExn]

theorem granteeRetryLoop_congr (att att2 : Nat → PostOutcome) :
    ∀ rem i, (∀ j, i ≤ j → j < i + rem → att j = att2 j) →
      granteeRetryLoop att i rem = granteeRetryLoop att2 i rem := by
  intro rem
  induction rem with
  | zero => intro i _; rfl
  | succ n ih =>
      intro i hag
      have hi : att i = att2 i := hag i le_rfl (by omega)
      unfold granteeRetryLoop
      rw [hi]
      have hrec := ih (i + 1) (fun j h1 h2 => hag j (by omega) (by omega))
      cases att2 i <;> simp [hrec]

theorem chunksGo_flatten (b : Nat) (hb : 0 < b) :
    ∀ (fuel : Nat) (l : List α), l.length ≤ fuel → (chunksGo b fuel l).flatten = l := by
  intro fuel
  induction fuel with
  | zero =>
      intro l hl
      have : l = [] := List.eq_nil_of_length_eq_zero (Nat.le_zero.mp hl)
      subst this
      rfl
  | succ n ih =>
      intro l hl
      cases l with
      | nil => rfl
      | cons x xs =>
          have hlen : ((x :: xs).drop b).length ≤ n := by
            rw [List.length_drop]
            simp only [List.length_cons] at hl ⊢
            omega
          show (((x :: xs).take b) :: chunksGo b n ((x :: xs).drop b)).flatten = x :: xs
          rw [List.flatten_cons, ih _ hlen, List.take_append_drop]

theorem chunksGo_length (b : Nat) (hb : 0 < b) :
    ∀ (fuel : Nat) (l : List α), l.length ≤ fuel →
      (chunksGo b fuel l).length = (l.length + b - 1) / b := by
  intro fuel
  induction fuel with
  | zero =>
      intro l hl
      have : l = [] := List.eq_nil_of_length_eq_zero (Nat.le_zero.mp hl)
      subst this
      simp [chunksGo, Nat.div_eq_of_lt (by omega : b - 1 < b)]
  | succ n ih =>
      intro l hl
      cases l with
      | nil => simp [chunksGo, Nat.div_eq_of_lt (by omega : b - 1 < b)]
      | cons x xs =>
          have hlen : ((x :: xs).drop b).length ≤ n := by
            rw [List.length_drop]
            simp only [List.length_cons] at hl ⊢
            omega
          have arith : ∀ m : Nat, (m + 1 - b + b - 1) / b + 1 = (m + 1 + b - 1) / b := by
            intro m
            have h2 : m + 1 + b - 1 = m + b := by omega
            rw [h2, Nat.add_div_right _ hb]
            rcases le_or_lt (m + 1) b with hle | hlt
            · have h1 : m + 1 - b + b - 1 = b - 1 := by omega
              rw [h1, Nat.div_eq_of_lt (by omega : b - 1 < b),
                Nat.div_eq_of_lt (by omega : m < b)]
            · have h1 : m + 1 - b + b - 1 = m := by omega
              rw [h1]
          show (((x :: xs).take b) :: chunksGo b n ((x :: xs).drop b)).length
              = ((x :: xs).length + b - 1) / b
          rw [List.length_cons, ih _ hlen, List.length_drop, List.length_cons]
          exact arith xs.length

theorem dropWhile_dropWhile (p : α → Bool) :
    ∀ l : List α, (l.dropWhile p).dropWhile p = l.dropWhile p := by
  intro l
  induction l with
  | nil => rfl
  | cons x xs ih =>
      by_cases h : p x
      · simp [List.dropWhile_cons, h, ih]
      · simp [List.dropWhile_cons, h]

theorem dropWhile_dropTrailing (p : α → Bool) (m : List α)
    (hm : m.dropWhile p = m) :
    (dropTrailing p m).dropWhile p = dropTrailing p m := by
  cases m with
  | nil => rfl
  | cons x xs =>
      have hx : p x = false := by
        by_contra hc
        have hx' : p x = true := by simpa using hc
        have hlen := congrArg List.length hm
        simp only [List.dropWhile_cons, hx', if_true, List.length_cons] at hlen
        have hle : (xs.dropWhile p).length ≤ xs.length :=
          (List.dropWhile_suffix p).length_le
        omega
      obtain ⟨t, ht⟩ := List.dropWhile_suffix (l := (x :: xs).reverse) p
      have hsplit : dropTrailing p (x :: xs) ++ t.reverse = x :: xs := by
        have hr := congrArg List.reverse ht
        simpa [dropTrailing, List.reverse_append] using hr
      cases hdt : dropTrailing p (x :: xs) with
      | nil => rfl
      | cons y ys =>
          rw [hdt] at hsplit
          have hyx : y = x := by
            have := congrArg (fun l => l.head?) hsplit
            simpa using this
          subst hyx
          simp [List.dropWhile_cons, hx]

theorem dropTrailing_idem (p : α → Bool) (l : List α) :
    dropTrailing p (dropTrailing p l) = dropTrailing p l := by
  simp [dropTrailing, List.reverse_reverse, dropWhile_dropWhile]

theorem stripList_idem (l : List Char) : stripList (stripList l) = stripList l := by
  unfold stripList
  rw [dropWhile_dropTrailing pyIsSpace (l.dropWhile pyIsSpace) (dropWhile_dropWhile _ _),
    dropTrailing_idem]

theorem pyStrip_idem (s : String) : pyStrip (pyStrip s) = pyStrip s := by
  have hmk : ∀ l : List Char, (String.mk l).toList = l := fun _ => rfl
  unfold pyStrip
  rw [hmk, stripList_idem]

theorem find?_setmap (k k2 : String) (v : Option String) (h : k ≠ k2) :
    ∀ ps : List (String × Option String),
      List.find? (fun p => p.1 == k) (ps.map (fun p => if p.1 == k2 then (k2, v) else p))
        = List.find? (fun p => p.1 == k) ps := by
  intro ps
  induction ps with
  | nil => rfl
  | cons p ps ih =>
      have hk2 : ¬ (((k2, v) : String × Option String).1 == k) = true := by
        simp only [beq_iff_eq]
        exact fun hc => h hc.symm
      simp only [List.map_cons]
      by_cases hp : (p.1 == k2) = true
      · have hp' : p.1 = k2 := by simpa using hp
        have hpk : ¬ (p.1 == k) = true := by
          simp only [beq_iff_eq, hp']
          exact fun hc => h hc.symm
        rw [if_pos hp, @List.find?_cons_of_neg _ (fun q => q.1 == k) (k2, v) _ hk2,
          @List.find?_cons_of_neg _ (fun q => q.1 == k) p _ hpk]
        exact ih
      · rw [if_neg hp]
        by_cases hpk : (p.1 == k) = true
        · rw [@List.find?_cons_of_pos _ (fun q => q.1 == k) p _ hpk,
            @List.find?_cons_of_pos _ (fun q => q.1 == k) p _ hpk]
        · rw [@List.find?_cons_of_neg _ (fun q => q.1 == k) p _ hpk,
            @List.find?_cons_of_neg _ (fun q => q.1 == k) p _ hpk]
          exact ih

theorem rowGet_rowSet_ne (r : Row) (k k2 : String) (v : Option String)
    (h : k ≠ k2) : rowGet (rowSet r k2 v) k = rowGet r k := by
  unfold rowSet rowGet
  by_cases hany : (r.any (fun p => p.1 == k2)) = true
  · rw [if_pos hany, find?_setmap k k2 v h r]
  · rw [if_neg hany, List.find?_append]
    have hsingle : List.find? (fun p => p.1 == k) [(k2, v)] = none := by
      have hk2 : ¬ (((k2, v) : String × Option String).1 == k) = true := by
        simp only [beq_iff_eq]
        exact fun hc => h hc.symm
      rw [@List.find?_cons_of_neg _ (fun q => q.1 == k) (k2, v) _ hk2]
      rfl
    rw [hsingle, Option.or_none]

theorem rowGet_writeRow (fns : List String) (r : Row) (k : String) (hk : k ∈ fns) :
    rowGet (granteeWriteRow fns r) k = some ((rowGet r k).getD "") := by
  induction fns with
  | nil => cases hk
  | cons f fs ih =>
      by_cases hf : f = k
      · subst hf
        simp [granteeWriteRow, rowGet, List.find?]
      · have hk' : k ∈ fs := by
          cases hk with
          | head => exact absurd rfl hf
          | tail _ hm => exact hm
        have hfk : (f == k) = false := by simpa using hf
        simp only [granteeWriteRow, List.map_cons, rowGet, List.find?, hfk]
        exact ih hk'

theorem rowGet_processRow (o : Row → Option String) (e : List (Option String))
    (r : Row) (k : String) (hk : k ≠ "id") :
    rowGet (granteeProcessRow o e r) k = rowGet r k := by
  unfold granteeProcessRow
  cases granteeRowAction e r with
  | skipMissingFields m => exact rowGet_rowSet_ne r k "id" _ hk
  | skipNoCreate => rfl
  | create a b => exact rowGet_rowSet_ne r k "id" _ hk

/-! ## Claim theorems -/

/-- C1: the claim states a create request is issued iff the row identifier
is absent from the fetched remote list.  ExtraOrganisation.process_batch
behaves that way (last two conjuncts), but Grantee.process_csv has the
membership test inverted: with an empty remote list a complete row is
skipped without a create request, and with the Name present in the remote
list a create request is issued (first two conjuncts) -- the opposite of
the claim and of the log message next to the guard. -/
theorem c1_create_guard_behaviour :
    granteeRowAction [] c1row = GranteeRowAction.skipNoCreate ∧
    granteeRowAction [some "Org A"] c1row
        = GranteeRowAction.create (some "Org A") (some "Jane") ∧
    extraOrgProcessRow c1oracle [] extraOrgInitState c1rowExtra
        = { extraOrgInitState with update_success_responses := [some "7"] } ∧
    extraOrgProcessRow c1oracle [some "7"] extraOrgInitState c1rowExtra
        = extraOrgInitState := by
  decide

/-- C4: each processed row is claimed to contribute at most one entry to
the final accumulated lists.  Running ExtraOrganisation.process_csv on two
rows with batch_size 1 (both creations failing) appends the Name of the
first row twice to all_failed, because process_batch returns the instance lists
that keep accumulating across batches and process_csv extends the all_
lists with them after every batch. -/
theorem c4_batch_lists_duplicated :
    (extraOrgProcessCsv c4oracle [] [c4row1, c4row2] 1).all_failed
        = [some "Org A", some "Org A", some "Org B"] ∧
    ((extraOrgProcessCsv c4oracle [] [c4row1, c4row2] 1).all_failed).count
        (some "Org A") = 2 := by
  decide

/-- C5, counterexample: Grantee.process_csv writes back to its input CSV
file, so the file contents change (here the header gains an id column),
contradicting the claim that the input CSV is unchanged. -/
theorem c5_counterexample : granteeWrittenFile c5oracle [] c5file ≠ c5file := by
  decide

/-- C6: each of the three remote-lookup helpers raises on its non-dry
path instead of returning a list: Grantee._get_nonprofits passes an
unexpected json keyword (and leaves data unbound) to
_send_request_with_retry, GrantPayment.get_nonprofit_data builds a tuple
instead of performing a request and then calls .get on it, and
GrantPayment._get_grants_name forwards json_payload/method keywords that
requests.get cannot bind. -/
theorem c6_remote_lookups_raise :
    (∀ items : List ContactItem,
      granteeGetNonprofits items
          = .error (.typeError "got an unexpected keyword argument")) ∧
    (∀ (endpoint : String) (headers payload : PyVal),
      getNonprofitData false endpoint headers payload
          = .error (.attributeError "tuple object has no attribute get")) ∧
    (∀ names : List (Option String),
      grantPaymentGetGrantsName names
          = .error (.typeError "got an unexpected keyword argument")) :=
  ⟨fun _ => rfl, fun _ _ _ => rfl, fun _ => rfl⟩

/-- C7, counterexample: GrantPayment._parse_date catches only ValueError,
so on a None argument the strptime TypeError escapes, contradicting the
claim that the helper never raises on None. -/
theorem c7_counterexample :
    grantPaymentParseDate none
      = .error (.typeError "strptime() argument 1 must be str, not None") := rfl

/-- C7, amended: both date helpers are total on every string (returning
the date reformatted as YYYY-MM-DD or None, never raising), and
the GrantPayment version accepts 4-digit and 2-digit years; but only
GrantUpdater._parse_date (which also catches TypeError) is total on None,
while GrantPayment._parse_date raises TypeError there. -/
theorem c7_amended_parse_date_totality :
    (∀ s : String, ∃ r : Option String,
      grantPaymentParseDate (some s) = .ok r ∧
      (r = none ∨ ∃ d : PyDate, r = some (formatDate d))) ∧
    (∀ ds : Option String,
      grantUpdaterParseDate ds = none ∨
        ∃ d : PyDate, grantUpdaterParseDate ds = some (formatDate d)) ∧
    grantPaymentParseDate (some "6/5/2024") = .ok (some "2024-06-05") ∧
    grantPaymentParseDate (some "6/5/24") = .ok (some "2024-06-05") := by
  refine ⟨?_, ?_, by decide, by decide⟩
  · intro s
    have hred : grantPaymentParseDate (some s)
        = (match strptimeMDY4 s with
           | some d => Except.ok (some (formatDate d))
           | none =>
             match strptimeMDY2 s with
             | some d => Except.ok (some (formatDate d))
             | none => Except.ok none) := rfl
    rw [hred]
    cases h4 : strptimeMDY4 s with
    | some d => exact ⟨some (formatDate d), rfl, Or.inr ⟨d, rfl⟩⟩
    | none =>
        cases h2 : strptimeMDY2 s with
        | some d => exact ⟨some (formatDate d), rfl, Or.inr ⟨d, rfl⟩⟩
        | none => exact ⟨none, rfl, Or.inl rfl⟩
  · intro ds
    cases ds with
    | none => exact Or.inl rfl
    | some s =>
        have hred : grantUpdaterParseDate (some s) = (strptimeMDY4 s).map formatDate := rfl
        rw [hred]
        cases h4 : strptimeMDY4 s with
        | some d => exact Or.inr ⟨d, rfl⟩
        | none => exact Or.inl rfl

/-- C8, counterexample: on the same all-200 response sequence the
create_grantees.py and add_extra_organsations.py helpers return the
response at once, while the update_grantee.py helper (success code 204)
re-raises after exhausting its retries: the copies are not behaviorally
equivalent. -/
theorem c8_counterexample :
    granteeSendRequestWithRetry c8att 3 = .ok (some ⟨200, "created"⟩) ∧
    extraOrgSendRequestWithRetry c8att 3 = .ok (some ⟨200, "created"⟩) ∧
    granteeUpdaterSendRequestWithRetry c8att 3 = .error (.requestException 200) ∧
    granteeSendRequestWithRetry c8att 3 ≠ granteeUpdaterSendRequestWithRetry c8att 3 := by
  refine ⟨rfl, rfl, rfl, by decide⟩

/-- C8, amended: the create_grantees.py and add_extra_organsations.py
copies of _send_request_with_retry are behaviorally equivalent (and equal
to the common retry algorithm with success code 200, as is the
create_grants_and_payments.py copy), while the update_grantee.py copy
follows the same algorithm with success code 204 instead. -/
theorem c8_amended_retry_copies (att : Nat → PostOutcome) (retries : Nat) :
    granteeSendRequestWithRetry att retries = extraOrgSendRequestWithRetry att retries ∧
    granteeSendRequestWithRetry att retries = retrySpec 200 att retries ∧
    extraOrgSendRequestWithRetry att retries = retrySpec 200 att retries ∧
    grantPaymentSendRequestWithRetry att retries = retrySpec 200 att retries ∧
    granteeUpdaterSendRequestWithRetry att retries = retrySpec 204 att retries := by
  unfold granteeSendRequestWithRetry extraOrgSendRequestWithRetry
    grantPaymentSendRequestWithRetry granteeUpdaterSendRequestWithRetry retrySpec
  exact ⟨by rw [granteeRetryLoop_eq_spec, extraOrgRetryLoop_eq_spec],
    by rw [granteeRetryLoop_eq_spec],
    by rw [extraOrgRetryLoop_eq_spec],
    by rw [grantPaymentRetryLoop_eq_spec],
    by rw [granteeUpdaterRetryLoop_eq_spec]⟩

/-- C10: for every row list and positive batch size, the slices taken by
ExtraOrganisation.process_csv concatenate back to the input, every row
lands in exactly one slice (counting multiplicity), and the number of
slices is the ceiling of length / batch_size. -/
theorem c10_batches_partition (l : List Row) (b : Nat) (hb : 0 < b) :
    (chunks b l).flatten = l ∧
    (∀ x : Row, ((chunks b l).map (List.count x)).sum = l.count x) ∧
    (chunks b l).length = (l.length + b - 1) / b := by
  have h1 : (chunks b l).flatten = l := chunksGo_flatten b hb l.length l le_rfl
  refine ⟨h1, fun x => ?_, chunksGo_length b hb l.length l le_rfl⟩
  have h2 := List.count_flatten x (chunks b l)
  rw [h1] at h2
  exact h2.symm

/-- C10, witness: the partition properties evaluated on five concrete rows
with batch size 2. -/
theorem c10_batches_partition_witness :
    (chunks 2 c10rows).flatten = c10rows ∧
    ((chunks 2 c10rows).map (List.count [("Organization Id", some "3")])).sum
        = c10rows.count [("Organization Id", some "3")] ∧
    (chunks 2 c10rows).length = (c10rows.length + 2 - 1) / 2 := by
  obtain ⟨h1, h2, h3⟩ := c10_batches_partition c10rows 2 (by decide)
  exact ⟨h1, h2 _, h3⟩

/-- If _clean_amount returns a value, the argument was a string and the
value is float() of that string with commas stripped. -/
theorem cleanAmount_ok (a : Option String) (v : Option PyFloat)
    (h : cleanAmount a = .ok v) :
    ∃ s, a = some s ∧ v = pyFloatLit (pyReplace s "," "") := by
  cases a with
  | none => exact absurd h (by simp [cleanAmount])
  | some s =>
      refine ⟨s, rfl, ?_⟩
      have hs : cleanAmount (some s) = .ok (pyFloatLit (pyReplace s "," "")) := rfl
      rw [hs] at h
      exact (Except.ok.inj h).symm

/-- C2: with retries = 3 the helper consults at most the first three
attempt outcomes (second conjunct), returns the response of the first
attempt whose status code is 200 (third conjunct), re-raises the exception
held at the last attempt when all three fail (fourth conjunct), and never
returns None to its caller (fifth conjunct); the
create_grants_and_payments.py copy agrees with the create_grantees.py one
on every input (first conjunct). -/
theorem c2_retry_behaviour (att att2 : Nat → PostOutcome) :
    (∀ retries, grantPaymentSendRequestWithRetry att retries
        = granteeSendRequestWithRetry att retries) ∧
    ((∀ i, i < 3 → att i = att2 i) →
      granteeSendRequestWithRetry att 3 = granteeSendRequestWithRetry att2 3) ∧
    (∀ i, i < 3 → attemptSuccess 200 (att i) = true →
      (∀ j, j < i → attemptSuccess 200 (att j) = false) →
      ∃ r, att i = PostOutcome.resp r ∧
        granteeSendRequestWithRetry att 3 = .ok (some r)) ∧
    ((∀ i, i < 3 → attemptSuccess 200 (att i) = false) →
      granteeSendRequestWithRetry att 3 = .error (attemptExn (att 2))) ∧
    granteeSendRequestWithRetry att 3 ≠ .ok none := by
  have heq : ∀ retries, grantPaymentSendRequestWithRetry att retries
      = granteeSendRequestWithRetry att retries := by
    intro retries
    unfold grantPaymentSendRequestWithRetry granteeSendRequestWithRetry
    rw [grantPaymentRetryLoop_eq_spec, granteeRetryLoop_eq_spec]
  have hcongr : (∀ i, i < 3 → att i = att2 i) →
      granteeSendRequestWithRetry att 3 = granteeSendRequestWithRetry att2 3 := by
    intro hag
    unfold granteeSendRequestWithRetry
    exact granteeRetryLoop_congr att att2 3 0 (fun j h1 h2 => hag j (by omega))
  have hfirst : ∀ i, i < 3 → attemptSuccess 200 (att i) = true →
      (∀ j, j < i → attemptSuccess 200 (att j) = false) →
      ∃ r, att i = PostOutcome.resp r ∧
        granteeSendRequestWithRetry att 3 = .ok (some r) := by
    intro i hi hsucc hprev
    obtain ⟨r, hr, h200⟩ : ∃ r, att i = PostOutcome.resp r ∧ r.status = 200 := by
      cases h : att i with
      | resp r =>
          rw [h] at hsucc
          simp only [attemptSuccess] at hsucc
          exact ⟨r, rfl, by simpa using hsucc⟩
      | err m =>
          rw [h] at hsucc
          simp [attemptSuccess] at hsucc
    refine ⟨r, hr, ?_⟩
    unfold granteeSendRequestWithRetry
    interval_cases i
    · exact granteeRetryLoop_first_success att 0 2 r hr h200
    · have e1 : granteeRetryLoop att 0 3 = granteeRetryLoop att 1 2 :=
        granteeRetryLoop_skip att 0 2 (by omega) (hprev 0 (by omega))
      exact e1.trans (granteeRetryLoop_first_success att 1 1 r hr h200)
    · have e1 : granteeRetryLoop att 0 3 = granteeRetryLoop att 1 2 :=
        granteeRetryLoop_skip att 0 2 (by omega) (hprev 0 (by omega))
      have e2 : granteeRetryLoop att 1 2 = granteeRetryLoop att 2 1 :=
        granteeRetryLoop_skip att 1 1 (by omega) (hprev 1 (by omega))
      exact e1.trans (e2.trans (granteeRetryLoop_first_success att 2 0 r hr h200))
  have hall : (∀ i, i < 3 → attemptSuccess 200 (att i) = false) →
      granteeSendRequestWithRetry att 3 = .error (attemptExn (att 2)) := by
    intro hf
    unfold granteeSendRequestWithRetry
    have e1 : granteeRetryLoop att 0 3 = granteeRetryLoop att 1 2 :=
      granteeRetryLoop_skip att 0 2 (by omega) (hf 0 (by omega))
    have e2 : granteeRetryLoop att 1 2 = granteeRetryLoop att 2 1 :=
      granteeRetryLoop_skip att 1 1 (by omega) (hf 1 (by omega))
    exact e1.trans (e2.trans (granteeRetryLoop_last_fail att 2 (hf 2 (by omega))))
  refine ⟨heq, hcongr, hfirst, hall, ?_⟩
  by_cases h0 : attemptSuccess 200 (att 0) = true
  · obtain ⟨r, _, hres⟩ := hfirst 0 (by omega) h0 (fun j hj => by omega)
    rw [hres]
    intro hc
    exact Option.noConfusion (Except.ok.inj hc)
  · by_cases h1 : attemptSuccess 200 (att 1) = true
    · obtain ⟨r, _, hres⟩ := hfirst 1 (by omega) h1 (fun j hj => by
        interval_cases j
        simpa using h0)
      rw [hres]
      intro hc
      exact Option.noConfusion (Except.ok.inj hc)
    · by_cases h2 : attemptSuccess 200 (att 2) = true
      · obtain ⟨r, _, hres⟩ := hfirst 2 (by omega) h2 (fun j hj => by
          interval_cases j
          · simpa using h0
          · simpa using h1)
        rw [hres]
        intro hc
        exact Option.noConfusion (Except.ok.inj hc)
      · have hres := hall (fun i hi => by
          interval_cases i
          · simpa using h0
          · simpa using h1
          · simpa using h2)
        rw [hres]
        intro hc
        exact Except.noConfusion hc

/-- C2, witness: on attempts that fail twice and return 200 the third
time, the helper returns that third response; on attempts that always
raise, it re-raises the exception of the last attempt. -/
theorem c2_retry_behaviour_witness :
    granteeSendRequestWithRetry c2att 3 = .ok (some ⟨200, "ok"⟩) ∧
    granteeSendRequestWithRetry c2failAtt 3 = .error (.requestsError "boom 3") := by
  constructor
  · obtain ⟨r, hr, hres⟩ :=
      (c2_retry_behaviour c2att c2att).2.2.1 2 (by decide) (by decide) (by decide)
    have h2 : c2att 2 = PostOutcome.resp ⟨200, "ok"⟩ := rfl
    rw [h2] at hr
    rw [← PostOutcome.resp.inj hr] at hres
    exact hres
  · exact (c2_retry_behaviour c2failAtt c2failAtt).2.2.2.1 (by decide)

/-- C9: the contact-person normalization in
GranteeUpdater._update_custom_fields equals strip-then-rename (only
"Seth Aaron Gross Andrew" is renamed, to "Seth Andrews"); the misspelt
"Amolo Ngweno" is left unchanged (the branch guarding the apostrophe fix
compares against the already-correct spelling, so its replace is a no-op);
and the normalization is idempotent. -/
theorem c9_contact_normalization :
    (∀ s, updateContactNormalize s = contactNormalizeSpec s) ∧
    updateContactNormalize "Amolo Ngweno" = "Amolo Ngweno" ∧
    (∀ s, updateContactNormalize (updateContactNormalize s)
        = updateContactNormalize s) := by
  have hspec : ∀ s, updateContactNormalize s = contactNormalizeSpec s := by
    intro s
    by_cases ha : pyStrip s = amoloWithApostrophe
    · simp only [updateContactNormalize, contactNormalizeSpec, ha]
      decide
    · by_cases hb : pyStrip s = "Seth Aaron Gross Andrew"
      · simp only [updateContactNormalize, contactNormalizeSpec, hb]
        decide
      · have ha' : (pyStrip s == amoloWithApostrophe) = false := beq_eq_false_iff_ne.mpr ha
        have hb' : (pyStrip s == "Seth Aaron Gross Andrew") = false :=
          beq_eq_false_iff_ne.mpr hb
        simp only [updateContactNormalize, contactNormalizeSpec, ha', hb',
          Bool.false_eq_true, if_false]
  have hidem : ∀ s, contactNormalizeSpec (contactNormalizeSpec s)
      = contactNormalizeSpec s := by
    intro s
    by_cases hb : pyStrip s = "Seth Aaron Gross Andrew"
    · have h1 : contactNormalizeSpec s = "Seth Andrews" := by
        simp only [contactNormalizeSpec, hb]
        decide
      rw [h1]
      decide
    · have hb' : (pyStrip s == "Seth Aaron Gross Andrew") = false :=
        beq_eq_false_iff_ne.mpr hb
      have h1 : contactNormalizeSpec s = pyStrip s := by
        simp only [contactNormalizeSpec, hb', Bool.false_eq_true, if_false]
      rw [h1]
      simp only [contactNormalizeSpec, pyStrip_idem, hb', Bool.false_eq_true, if_false]
  refine ⟨hspec, by decide, fun s => ?_⟩
  rw [hspec (updateContactNormalize s), hspec s, hidem s]

/-- C5, amended: apart from HTTP traffic and logging, the only persistent
effect of the scripts is Grantee.process_csv rewriting its input CSV; the
written file keeps every original column of every row (values serialised
through DictWriter, so a missing or None value becomes the empty string)
and adds an id column recording the outcome for each row. -/
theorem c5_amended_write_back (o : Row → Option String) (e : List (Option String))
    (f : CsvFile) (hid : "id" ∉ f.fieldnames) :
    (granteeWrittenFile o e f).fieldnames = f.fieldnames ++ ["id"] ∧
    (granteeWrittenFile o e f).rows.length = f.rows.length ∧
    ∀ k ∈ f.fieldnames,
      (granteeWrittenFile o e f).rows.map (fun r => rowGet r k)
        = f.rows.map (fun r => some ((rowGet r k).getD "")) := by
  have hcont : (f.fieldnames.contains "id") = false := by
    rw [← Bool.not_eq_true]
    intro hc
    exact hid (List.elem_iff.mp hc)
  refine ⟨?_, ?_, ?_⟩
  · simp only [granteeWrittenFile, hcont, Bool.false_eq_true, if_false]
  · simp only [granteeWrittenFile, List.length_map]
  · intro k hk
    have hkid : k ≠ "id" := fun hc => hid (hc ▸ hk)
    simp only [granteeWrittenFile, hcont, Bool.false_eq_true, if_false, List.map_map]
    apply List.map_congr_left
    intro r hr
    show rowGet (granteeWriteRow (f.fieldnames ++ ["id"]) (granteeProcessRow o e r)) k
        = some ((rowGet r k).getD "")
    rw [rowGet_writeRow _ _ _ (List.mem_append.mpr (Or.inl hk)),
      rowGet_processRow o e r k hkid]

/-- C5, amended, witness: the write-back shape evaluated on a concrete
two-column file. -/
theorem c5_amended_write_back_witness :
    (granteeWrittenFile c5oracle [] c5file).fieldnames = c5file.fieldnames ++ ["id"] ∧
    (granteeWrittenFile c5oracle [] c5file).rows.map (fun r => rowGet r "Name")
        = c5file.rows.map (fun r => some ((rowGet r "Name").getD "")) := by
  obtain ⟨h1, _, h3⟩ := c5_amended_write_back c5oracle [] c5file (by decide)
  exact ⟨h1, h3 "Name" (by decide)⟩

/-- C3: for every mapped row for which generate_json_request builds a
payload, grantPayments holds exactly one payment when the Stage of the row is
Active grant or Engagement completed and is empty otherwise; that
status of that payment is SENT exactly when the Disbursement date is non-empty
and NOT_STARTED otherwise; and awardedAmount is the comma-stripped
float() value of the Amount of the row for those two stages and 0 for every
other stage. -/
theorem c3_payload_stage_fields (env : GrantEnv) (existingGrants : List String)
    (row : Row) (req : GrantRequest)
    (h : generateRowRequest env existingGrants row = .ok (some req)) :
    (isApprovedStage (rowGet row "Stage") = true →
      req.grantPayments.length = 1 ∧
      req.grantPayments.map (fun p => p.status)
          = [if pyTruthyStr (rowGet row "Disbursement date") = true then "SENT"
             else "NOT_STARTED"] ∧
      ∃ s, rowGet row "Amount" = some s ∧
        req.awardedAmount = pyFloatLit (pyReplace s "," "")) ∧
    (isApprovedStage (rowGet row "Stage") = false →
      req.grantPayments = [] ∧ req.awardedAmount = some pyZero) := by
  unfold generateRowRequest at h
  split at h
  · exact absurd h (by simp)
  split at h
  · exact absurd h (by simp)
  split at h
  · exact absurd h (by simp)
  split at h
  · exact absurd h (by simp)
  split at h
  · exact absurd h (by simp)
  split at h
  · exact absurd h (by simp)
  split at h
  · exact absurd h (by simp)
  rename_i amountVal hamt
  replace h := Option.some.inj (Except.ok.inj h)
  subst h
  obtain ⟨s, hsome, hval⟩ := cleanAmount_ok _ _ hamt
  subst hval
  refine ⟨fun happr => ⟨?_, ?_, s, hsome, ?_⟩, fun hnappr => ⟨?_, ?_⟩⟩
  · simp [happr]
  · simp [happr]
  · simp [happr]
  · simp [hnappr]
  · simp [hnappr]

/-- C3, witness: the payload built for a concrete Active grant row with a
disbursement date carries one SENT payment and the parsed Amount, and the
payload for a Declined row carries no payments and awardedAmount 0. -/
theorem c3_payload_stage_fields_witness :
    c3req.grantPayments.length = 1 ∧
    c3req.grantPayments.map (fun p => p.status) = ["SENT"] ∧
    c3req.awardedAmount = some ⟨100050, -2⟩ ∧
    c3reqClosed.grantPayments = [] ∧
    c3reqClosed.awardedAmount = some pyZero := by
  obtain ⟨ha, -⟩ := c3_payload_stage_fields c3env [] c3row c3req rfl
  obtain ⟨h1, h2, s, hs, hval⟩ := ha (by decide)
  obtain ⟨hb1, hb2⟩ :=
    (c3_payload_stage_fields c3env [] c3rowClosed c3reqClosed rfl).2 (by decide)
  refine ⟨h1, ?_, ?_, hb1, hb2⟩
  · rw [h2]
    decide
  · have h' : rowGet c3row "Amount" = some "1,000.50" := by decide
    rw [h'] at hs
    rw [hval, ← Option.some.inj hs]
    decide
